import Mathlib

/-!
# Verification of `whipple_cams_to_json.cpp`

Shallow embedding of the camera-geometry JSON encoder in
`src/AncillaryComponents/whipple_cams_to_json.cpp` and proofs about it.

Modelling choices, all taken from the source file:

* A neighbor row is modelled as a `List Int`: the row's fixed-width cells
  followed, where a claim needs it, by whatever data sits after the row in
  the contiguous 2-D array (the inner loop at line 50 has no bound on the
  column index `j`, so the scan can run past the row's fixed width).
* `numTubes` / `npix` is a `size_t` in the source; the comparison
  `neighbors[i][j] >= numTubes` at line 51 converts the `int` entry to
  `size_t` (64-bit unsigned) first.  `toSizeT` models that conversion.
* Coordinate values are `float` in the source and are emitted through
  `operator<<`; their textual rendering is floating-point behaviour outside
  this embedding, so coordinates are carried as already-rendered opaque
  tokens (`String`).  Nothing proved here inspects them.
-/

/-- C++ usual-arithmetic-conversion of a signed integer value to `size_t`
(64-bit unsigned), as performed by `neighbors[i][j] >= numTubes` at line 51. -/
def toSizeT (v : Int) : Nat := (v % (2 ^ 64 : Int)).toNat

/-- The inner loop of `neighborsToJsonArray` (line 50):
`for (int j = 0; neighbors[i][j] != -1; ++j)` visits the cells of the memory
region strictly before the first `-1`.  There is no bound on `j`. -/
def scanRow (mem : List Int) : List Int := mem.takeWhile (fun v => v ≠ -1)

/-- Column index at which the loop condition of line 50 first reads `-1`
(length of the region if it never does).  The loop reads every column from
`0` up to and including this index. -/
def sentinelIdx (mem : List Int) : Nat := mem.findIdx (fun v => v = -1)

/-- The filter at lines 51-53: the entry is emitted unless
`neighbors[i][j] >= numTubes`, an `int` vs `size_t` comparison, so the entry
is converted to unsigned first. -/
def keepNeighbor (numTubes : Nat) (v : Int) : Bool := toSizeT v < numTubes

/-- The neighbor list emitted for one pixel by `neighborsToJsonArray`
(lines 48-59): scan up to the first sentinel, keep entries passing the
unsigned range test. -/
def neighborList (numTubes : Nat) (row : List Int) : List Int :=
  (scanRow row).filter (keepNeighbor numTubes)

/-- The neighbor filter as §4.1 of the spec words it ("including each scanned
value `v` in the output list only if `v < pixel_count`", a plain integer
comparison).  Written from the spec for comparison with `neighborList`. -/
def specNeighborList (npix : Nat) (row : List Int) : List Int :=
  (scanRow row).filter (fun v => decide (v < (npix : Int)))

/-- One input record fed to `writeDataSetToJson` (lines 70-74): the key
`nadc`, the coordinate/radius arrays (as rendered tokens), the neighbor
rows and the active pixel count `npix`. -/
structure DataSet where
  nadc : Nat
  posX : List String
  posY : List String
  radius : List String
  rows : List (List Int)
  npix : Nat
deriving DecidableEq

/-- The structured content of one emitted JSON entry (lines 76-92). -/
structure GeometryRecord where
  nadc : Nat
  npix : Nat
  x : List String
  y : List String
  r : List String
  neighbors : List (List Int)
deriving DecidableEq

/-- The per-camera encoding performed by `writeDataSetToJson`: echo `nadc`
and `npix`, emit the first `npix` coordinates/radii (`arrayToJsonArray`,
lines 30-41) and the filtered neighbor list of each of the first `npix`
rows (`neighborsToJsonArray`, lines 44-67). -/
def encodeCamera (d : DataSet) : GeometryRecord :=
  { nadc := d.nadc
    npix := d.npix
    x := d.posX.take d.npix
    y := d.posY.take d.npix
    r := d.radius.take d.npix
    neighbors := (d.rows.take d.npix).map (neighborList d.npix) }

/-- The sequence of key/record entries emitted into the document by the
successive `writeDataSetToJson` calls of `main` (lines 117-126).  The C++
document is a text stream; each call appends one `"<nadc>": {...}` entry,
so the document's entry structure is the list of encodings in call order. -/
def encodeDocument (ds : List DataSet) : List (Nat × GeometryRecord) :=
  ds.map (fun d => (d.nadc, encodeCamera d))

/-- `arrayToJsonArray` (lines 30-41): first `npix` elements, comma-separated,
in square brackets. -/
def arrayToJsonArray (array : List String) (npix : Nat) : String :=
  "[" ++ String.intercalate ", " (array.take npix) ++ "]"

/-- `neighborsToJsonArray` (lines 44-67) as text. -/
def neighborsToJsonArray (rows : List (List Int)) (numTubes : Nat) : String :=
  "[ " ++ String.intercalate ", "
      ((rows.take numTubes).map
        (fun row => "[ " ++ String.intercalate ", "
            ((neighborList numTubes row).map toString) ++ " ]"))
    ++ " ]"

/-- `writeDataSetToJson` (lines 70-100) as text. -/
def writeDataSetToJson (d : DataSet) (more : Bool) : String :=
  "  \"" ++ toString d.nadc ++ "\": \x7b\n"
    ++ "    \"nadc\": " ++ toString d.nadc ++ ",\n"
    ++ "    \"npix\": " ++ toString d.npix ++ ",\n"
    ++ "    \"x\": " ++ arrayToJsonArray d.posX d.npix ++ ",\n"
    ++ "    \"y\": " ++ arrayToJsonArray d.posY d.npix ++ ",\n"
    ++ "    \"r\": " ++ arrayToJsonArray d.radius d.npix ++ ",\n"
    ++ "    \"neighbors\": " ++ neighborsToJsonArray d.rows d.npix ++ "\n"
    ++ (if more then "  \x7d,\n" else "  \x7d\n")

/-- The dataset section of `main` (lines 117-126): every call passes
`more = true` except the last. -/
def writeAllDataSets : List DataSet → String
  | [] => ""
  | [d] => writeDataSetToJson d false
  | d :: d2 :: rest => writeDataSetToJson d true ++ writeAllDataSets (d2 :: rest)

/-- The whole document text built in `main` (lines 112-129): opening brace,
the header line (a static string, line 115, out of core scope and passed
here as a parameter), the dataset entries, closing brace. -/
def jsonDocument (header : String) (ds : List DataSet) : String :=
  "\x7b\n" ++ header ++ writeAllDataSets ds ++ "\x7d\n"

lemma mem_of_mem_scanRow {row : List Int} {v : Int} (h : v ∈ scanRow row) : v ∈ row :=
  (List.takeWhile_prefix _).sublist.subset h

/-- On `int`-range entries and a realistic pixel count, the unsigned range
test of line 51 agrees with the signed two-sided test. -/
lemma keepNeighbor_eq_signed (npix : Nat) (v : Int) (hn : npix ≤ 2 ^ 32)
    (hlo : -(2 ^ 31) ≤ v) (hhi : v < 2 ^ 31) :
    keepNeighbor npix v = decide (0 ≤ v ∧ v < (npix : Int)) := by
  unfold keepNeighbor toSizeT
  refine decide_eq_decide.mpr ?_
  omega

lemma mem_neighborList {npix : Nat} {row : List Int} {v : Int}
    (h : v ∈ neighborList npix row) : v ∈ row ∧ toSizeT v < npix := by
  unfold neighborList at h
  refine ⟨mem_of_mem_scanRow (List.mem_of_mem_filter h), ?_⟩
  have hk := List.of_mem_filter h
  unfold keepNeighbor at hk
  exact of_decide_eq_true hk

/-- C1, counterexample: on the row `[-2, 0, -1]` with `npix = 3`, the filter
as the claim words it ("keep scanned `v` with `v < npix`") keeps `-2`, but
the code's unsigned comparison at line 51 drops it: the emitted list is
`[0]`, not `[-2, 0]`. -/
theorem neighbor_scan_spec_filter_cex :
    specNeighborList 3 [-2, 0, -1] = [-2, 0] ∧
      neighborList 3 [-2, 0, -1] = [0] ∧
      neighborList 3 [-2, 0, -1] ≠ specNeighborList 3 [-2, 0, -1] := by
  refine ⟨by decide, by decide, by decide⟩

/-- C1 (amended): for every neighbor row whose entries are in `int` range
and every `npix` in `size_t`-realistic range, the emitted neighbor list is
the left-to-right scan of the row stopped at the first `-1`, keeping exactly
the scanned values `v` with `0 ≤ v < npix` (the range test is performed
after conversion of the entry to unsigned, so negative entries fail it),
in their original relative order with duplicates preserved. -/
theorem neighbor_scan_unsigned_filter (npix : Nat) (row : List Int)
    (hn : npix ≤ 2 ^ 32)
    (hrow : ∀ v ∈ row, -(2 ^ 31) ≤ v ∧ v < 2 ^ 31) :
    neighborList npix row =
      (scanRow row).filter (fun v => decide (0 ≤ v ∧ v < (npix : Int))) := by
  unfold neighborList
  refine List.filter_congr ?_
  intro v hv
  obtain ⟨hlo, hhi⟩ := hrow v (mem_of_mem_scanRow hv)
  exact keepNeighbor_eq_signed npix v hn hlo hhi

/-- Witness for `neighbor_scan_unsigned_filter` at `npix = 3`,
`row = [1, 4, 0, -1, 2]`. -/
theorem neighbor_scan_unsigned_filter_witness :
    neighborList 3 [1, 4, 0, -1, 2] =
      (scanRow [1, 4, 0, -1, 2]).filter
        (fun v => decide (0 ≤ v ∧ v < ((3 : Nat) : Int))) :=
  neighbor_scan_unsigned_filter 3 [1, 4, 0, -1, 2] (by decide) (by decide)

/-- C4: for a record whose neighbor entries are in `int` range and whose
pixel count is in realistic range, every integer in every emitted neighbor
list of `encodeCamera` lies in `[0, npix)`. -/
theorem neighbors_in_range (d : DataSet) (hn : d.npix ≤ 2 ^ 32)
    (hrow : ∀ row ∈ d.rows, ∀ v ∈ row, -(2 ^ 31) ≤ v ∧ v < 2 ^ 31) :
    ∀ l ∈ (encodeCamera d).neighbors, ∀ v ∈ l,
      0 ≤ v ∧ v < (d.npix : Int) := by
  intro l hl v hv
  simp only [encodeCamera, List.mem_map] at hl
  obtain ⟨row, hmem, rfl⟩ := hl
  obtain ⟨hvrow, hvsize⟩ := mem_neighborList hv
  obtain ⟨hlo, hhi⟩ := hrow row (List.mem_of_mem_take hmem) v hvrow
  unfold toSizeT at hvsize
  omega

/-- Witness for `neighbors_in_range` on a concrete record. -/
theorem neighbors_in_range_witness :
    ((3 : Nat) ≤ 2 ^ 32) ∧
      ∀ l ∈ (encodeCamera
          ⟨384, ["a", "b", "c"], ["d", "e", "f"], ["g", "h", "i"],
            [[1, 4, -1], [-2, 0, -1], [2, -1]], 3⟩).neighbors,
        ∀ v ∈ l, 0 ≤ v ∧ v < (((3 : Nat)) : Int) :=
  ⟨by decide,
    neighbors_in_range
      ⟨384, ["a", "b", "c"], ["d", "e", "f"], ["g", "h", "i"],
        [[1, 4, -1], [-2, 0, -1], [2, -1]], 3⟩
      (by decide) (by decide)⟩

/-- C9: on `int`-range rows, any negative entry other than the sentinel
occurring before the sentinel is dropped rather than emitted (it converts to
a large unsigned value and fails the `v < numTubes` test of line 51), so
emitted neighbor indices are never negative. -/
theorem negative_entries_dropped (npix : Nat) (row : List Int)
    (hn : npix ≤ 2 ^ 32)
    (hrow : ∀ v ∈ row, -(2 ^ 31) ≤ v) :
    (∀ v ∈ scanRow row, v < 0 → v ∉ neighborList npix row) ∧
      (∀ v ∈ neighborList npix row, 0 ≤ v) := by
  have key : ∀ v ∈ neighborList npix row, 0 ≤ v := by
    intro v hv
    obtain ⟨hvrow, hvsize⟩ := mem_neighborList hv
    have hlo := hrow v hvrow
    unfold toSizeT at hvsize
    omega
  refine ⟨?_, key⟩
  intro v _ hneg hmem
  exact absurd (key v hmem) (by omega)

/-- Witness for `negative_entries_dropped` at `npix = 3`,
`row = [-2, 0, -1]`. -/
theorem negative_entries_dropped_witness :
    (∀ v ∈ scanRow [-2, 0, -1], v < 0 → v ∉ neighborList 3 [-2, 0, -1]) ∧
      (∀ v ∈ neighborList 3 [-2, 0, -1], 0 ≤ v) :=
  negative_entries_dropped 3 [-2, 0, -1] (by decide) (by decide)

/-- C2, code defect: the inner loop at line 50 checks only
`neighbors[i][j] != -1` and has no `j < NUM_NEIGHBORS` bound.  For a row of
fixed width 2 holding `[3, 5]` (no sentinel) with `[7, -1]` sitting after it
in the contiguous array, the loop reads the cells at columns 2 and 3 — at
and beyond the fixed width — and even copies the past-width value `7` into
the scan. -/
theorem scan_reads_past_width :
    sentinelIdx [3, 5, 7, -1] = 3 ∧
      2 ≤ sentinelIdx [3, 5, 7, -1] ∧
      scanRow [3, 5, 7, -1] = [3, 5, 7] := by
  refine ⟨by decide, by decide, by decide⟩

/-- C3, code defect: the encoder has no validation and no error path.  For a
record with `npix = 4` whose row 0 has fixed width 2 holding `[3, 2]` with no
sentinel (the contiguous array continues `[1, -1]`), document construction
succeeds and emits a complete record — including the past-width value `1` —
instead of failing with `DataShapeError`. -/
theorem no_error_on_missing_sentinel :
    encodeCamera
        ⟨384, ["0", "0", "0", "0"], ["0", "0", "0", "0"],
          ["0", "0", "0", "0"], [[3, 2, 1, -1], [-1], [-1], [-1]], 4⟩ =
      ⟨384, 4, ["0", "0", "0", "0"], ["0", "0", "0", "0"],
        ["0", "0", "0", "0"], [[3, 2, 1], [], [], []]⟩ := by
  decide

/-- C5, counterexample: `writeDataSetToJson` appends entries to a text
stream; nothing merges duplicate keys.  Encoding two records both keyed
`384` yields a document with two entries for that key, not one. -/
theorem duplicate_key_two_entries_cex :
    ((encodeDocument
        [⟨384, ["a"], ["b"], ["c"], [[-1]], 1⟩,
          ⟨384, ["d"], ["e"], ["f"], [[0, -1]], 1⟩]).filter
        (fun e => e.1 == 384)).length = 2 := by
  decide

/-- C5 (amended): encoding two records with the same `channel_count` key
yields a document whose entries for that key are the two encodings in input
order — two entries, not one — and the last entry for the key is the later
record's encoding, so a JSON reader resolving duplicate object keys by
last-write-wins observes exactly the later record's encoding. -/
theorem duplicate_key_last_write_wins (d1 d2 : DataSet) (k : Nat)
    (h1 : d1.nadc = k) (h2 : d2.nadc = k) :
    (encodeDocument [d1, d2]).filter (fun e => e.1 == k) =
        [(k, encodeCamera d1), (k, encodeCamera d2)] ∧
      ((encodeDocument [d1, d2]).filter (fun e => e.1 == k)).getLast? =
        some (k, encodeCamera d2) := by
  have hfil : (encodeDocument [d1, d2]).filter (fun e => e.1 == k) =
      [(k, encodeCamera d1), (k, encodeCamera d2)] := by
    subst h1
    simp [encodeDocument, h2]
  refine ⟨hfil, ?_⟩
  rw [hfil]
  rfl

/-- Witness for `duplicate_key_last_write_wins` on two concrete records both
keyed `384`. -/
theorem duplicate_key_last_write_wins_witness :
    (encodeDocument
          [⟨384, ["a"], ["b"], ["c"], [[-1]], 1⟩,
            ⟨384, ["d"], ["e"], ["f"], [[0, -1]], 1⟩]).filter
        (fun e => e.1 == 384) =
        [(384, encodeCamera ⟨384, ["a"], ["b"], ["c"], [[-1]], 1⟩),
          (384, encodeCamera ⟨384, ["d"], ["e"], ["f"], [[0, -1]], 1⟩)] ∧
      ((encodeDocument
          [⟨384, ["a"], ["b"], ["c"], [[-1]], 1⟩,
            ⟨384, ["d"], ["e"], ["f"], [[0, -1]], 1⟩]).filter
        (fun e => e.1 == 384)).getLast? =
        some (384, encodeCamera ⟨384, ["d"], ["e"], ["f"], [[0, -1]], 1⟩) :=
  duplicate_key_last_write_wins
    ⟨384, ["a"], ["b"], ["c"], [[-1]], 1⟩
    ⟨384, ["d"], ["e"], ["f"], [[0, -1]], 1⟩ 384 rfl rfl

/-- C7: the document encoding is a pure function of its input — the
embedding of `main`'s string construction (lines 112-129) involves no state,
randomness or I/O — so two invocations on the same input produce
byte-identical output text. -/
theorem encode_document_deterministic (header : String) (ds : List DataSet) :
    jsonDocument header ds = jsonDocument header ds := rfl

/-- C8: a record with `pixel_count = 0` encodes to a record with `npix = 0`
and empty `x`, `y`, `r` and `neighbors`, whatever the backing arrays
contain; both emission loops (lines 33 and 47) run zero iterations, which is
why the result is definitionally the empty encoding (`rfl`). -/
theorem empty_camera_encoding (nadc : Nat) (xs ys rs : List String)
    (rows : List (List Int)) :
    encodeCamera ⟨nadc, xs, ys, rs, rows, 0⟩ = ⟨nadc, 0, [], [], [], []⟩ :=
  rfl

/-- Truncating the active pixel count from 490 to 379 refines the per-row
neighbor filter: the 379-list is the 490-list with entries `≥ 379` removed
(for `int`-range rows). -/
lemma neighborList_truncate (row : List Int)
    (hrow : ∀ v ∈ row, -(2 ^ 31) ≤ v ∧ v < 2 ^ 31) :
    neighborList 379 row =
      (neighborList 490 row).filter (fun v => decide (v < (379 : Int))) := by
  unfold neighborList
  rw [List.filter_filter]
  refine List.filter_congr ?_
  intro v hv
  obtain ⟨hlo, hhi⟩ := hrow v (mem_of_mem_scanRow hv)
  unfold keepNeighbor toSizeT
  rw [← Bool.decide_and]
  refine decide_eq_decide.mpr ?_
  omega

/-- C10: the record `main` emits under key `384` (line 125, arrays
`WC490*`, `npix = 379`) is a pure truncation of the record it emits under
key `492` (line 123, the same arrays, `npix = 490`): its `x`, `y`, `r` are
the first 379 entries of the 492 record's sequences, and each of its
neighbor lists is the 492 record's list for the same pixel with entries
`≥ 379` removed. -/
theorem truncation_relation_384_492 (xs ys rs : List String)
    (rows : List (List Int))
    (hrow : ∀ row ∈ rows, ∀ v ∈ row, -(2 ^ 31) ≤ v ∧ v < 2 ^ 31) :
    (encodeCamera ⟨384, xs, ys, rs, rows, 379⟩).x =
        ((encodeCamera ⟨492, xs, ys, rs, rows, 490⟩).x).take 379 ∧
      (encodeCamera ⟨384, xs, ys, rs, rows, 379⟩).y =
        ((encodeCamera ⟨492, xs, ys, rs, rows, 490⟩).y).take 379 ∧
      (encodeCamera ⟨384, xs, ys, rs, rows, 379⟩).r =
        ((encodeCamera ⟨492, xs, ys, rs, rows, 490⟩).r).take 379 ∧
      (encodeCamera ⟨384, xs, ys, rs, rows, 379⟩).neighbors =
        (((encodeCamera ⟨492, xs, ys, rs, rows, 490⟩).neighbors).take 379).map
          (fun l => l.filter (fun v => decide (v < (379 : Int)))) := by
  refine ⟨?_, ?_, ?_, ?_⟩ <;> simp only [encodeCamera]
  · rw [List.take_take]
    norm_num
  · rw [List.take_take]
    norm_num
  · rw [List.take_take]
    norm_num
  · rw [← List.map_take, List.take_take, List.map_map]
    refine List.map_congr_left ?_
    intro row hmem
    exact neighborList_truncate row (hrow row (List.mem_of_mem_take hmem))

/-- Witness for `truncation_relation_384_492` on concrete backing arrays
(row 0 names neighbor 380, kept in the 492 record and dropped from the
384 record). -/
theorem truncation_relation_384_492_witness :
    (encodeCamera ⟨384, ["a"], ["b"], ["c"], [[380, 5, -1], [-2, 0, -1]],
          379⟩).x =
        ((encodeCamera ⟨492, ["a"], ["b"], ["c"], [[380, 5, -1], [-2, 0, -1]],
          490⟩).x).take 379 ∧
      (encodeCamera ⟨384, ["a"], ["b"], ["c"], [[380, 5, -1], [-2, 0, -1]],
          379⟩).y =
        ((encodeCamera ⟨492, ["a"], ["b"], ["c"], [[380, 5, -1], [-2, 0, -1]],
          490⟩).y).take 379 ∧
      (encodeCamera ⟨384, ["a"], ["b"], ["c"], [[380, 5, -1], [-2, 0, -1]],
          379⟩).r =
        ((encodeCamera ⟨492, ["a"], ["b"], ["c"], [[380, 5, -1], [-2, 0, -1]],
          490⟩).r).take 379 ∧
      (encodeCamera ⟨384, ["a"], ["b"], ["c"], [[380, 5, -1], [-2, 0, -1]],
          379⟩).neighbors =
        (((encodeCamera ⟨492, ["a"], ["b"], ["c"], [[380, 5, -1], [-2, 0, -1]],
            490⟩).neighbors).take 379).map
          (fun l => l.filter (fun v => decide (v < (379 : Int)))) :=
  truncation_relation_384_492 ["a"] ["b"] ["c"] [[380, 5, -1], [-2, 0, -1]]
    (by decide)
